import Mathlib

/-!
# Verification of the progress-aggregation and leaderboard-ranking engine

Shallow embedding of the core logic of the yoldagilar-backend repository:

* `DailyProgressService` (services/supabaseService.js): all-time stats
  aggregation and leaderboard building (`getUserAllTimeStats`,
  `getLeaderboardData`).
* `LeaderboardController` (controllers/leaderboardController.js): user
  position / percentile, leaderboard statistics, achievement calculation and
  the achievement leaderboard.
* `TasksController` (controllers/tasksController.js): submission validation,
  `completed_count` recomputation and the post-submission achievement check.

JavaScript numbers are embedded as `Int` where the source only ever stores
integers (counts, telegram ids, pages) and as `ℚ` where fractional values
occur (distance_km, scores, averages, percentiles).  Fields that may be
absent (`null`/`undefined` in a database row, defaulted with `|| 0`) are
embedded as `Option`.  `Math.round x` is embedded as `⌊x + 1/2⌋` and
`Math.floor` on a non-negative quantity as `Nat` division, both exact for
the rational embedding of the arithmetic involved.
-/

/-- JavaScript `Math.round`: round half towards positive infinity. -/
def jsRound (q : ℚ) : ℤ := ⌊q + 1/2⌋

/-- JavaScript `Math.round(q * 100) / 100` (round to 2 decimals). -/
def jsRound2 (q : ℚ) : ℚ := (jsRound (q * 100) : ℚ) / 100

/-- JavaScript `Array.prototype.findIndex`, with `-1` embedded as `none`. -/
def jsFindIndex {α : Type} (f : α → Bool) : List α → Option Nat
  | [] => none
  | x :: xs => if f x then some 0 else (jsFindIndex f xs).map (· + 1)

/-- Insertion of an element into a list that is sorted in non-increasing
order of `key`; helper for `sortDesc`. -/
def insertDesc {α : Type} (key : α → ℚ) (x : α) : List α → List α
  | [] => [x]
  | y :: ys => if key y < key x then x :: y :: ys else y :: insertDesc key x ys

/-- JavaScript `arr.sort((a, b) => key(b) - key(a))`: sort into
non-increasing order of `key`.  (The claims under verification only concern
the ordering of the sort key, on which every correct descending sort
agrees; insertion sort is used as the executable embedding.) -/
def sortDesc {α : Type} (key : α → ℚ) : List α → List α
  | [] => []
  | x :: xs => insertDesc key x (sortDesc key xs)

theorem insertDesc_perm {α : Type} (key : α → ℚ) (x : α) (l : List α) :
    List.Perm (insertDesc key x l) (x :: l) := by
  induction l with
  | nil => simp [insertDesc]
  | cons y ys ih =>
    simp only [insertDesc]
    split
    · exact List.Perm.refl _
    · exact List.Perm.trans (List.Perm.cons y ih) (List.Perm.swap x y ys)

theorem sortDesc_perm {α : Type} (key : α → ℚ) (l : List α) :
    List.Perm (sortDesc key l) l := by
  induction l with
  | nil => simp [sortDesc]
  | cons x xs ih =>
    exact List.Perm.trans (insertDesc_perm key x (sortDesc key xs)) (List.Perm.cons x ih)

theorem sortDesc_length {α : Type} (key : α → ℚ) (l : List α) :
    (sortDesc key l).length = l.length :=
  (sortDesc_perm key l).length_eq

theorem sortDesc_mem {α : Type} (key : α → ℚ) (l : List α) (x : α) :
    x ∈ sortDesc key l ↔ x ∈ l :=
  (sortDesc_perm key l).mem_iff

theorem insertDesc_head {α : Type} (key : α → ℚ) (x y : α) (l : List α)
    (hx : key x ≤ key y) (hl : ∀ z ∈ l.head?, key z ≤ key y) :
    ∀ z ∈ (insertDesc key x l).head?, key z ≤ key y := by
  cases l with
  | nil => simpa [insertDesc] using hx
  | cons w ws =>
    simp only [insertDesc]
    split
    · simpa using hx
    · simpa using hl w (by simp)

theorem insertDesc_chain {α : Type} (key : α → ℚ) (x : α) (l : List α)
    (h : List.Chain' (fun a b => key b ≤ key a) l) :
    List.Chain' (fun a b => key b ≤ key a) (insertDesc key x l) := by
  induction l with
  | nil => simp [insertDesc]
  | cons y ys ih =>
    simp only [insertDesc]
    split
    · rename_i hlt
      exact List.Chain'.cons (le_of_lt hlt) h
    · rename_i hnlt
      have hyx : key x ≤ key y := le_of_not_lt hnlt
      have hys : List.Chain' (fun a b => key b ≤ key a) ys := h.tail
      refine List.chain'_cons'.mpr ⟨?_, ih hys⟩
      refine insertDesc_head key x y ys hyx ?_
      intro z hz
      cases ys with
      | nil => simp at hz
      | cons w ws =>
        simp only [List.head?_cons, Option.mem_def, Option.some.injEq] at hz
        subst hz
        exact (List.chain'_cons.mp h).1

theorem sortDesc_chain {α : Type} (key : α → ℚ) (l : List α) :
    List.Chain' (fun a b => key b ≤ key a) (sortDesc key l) := by
  induction l with
  | nil => simp [sortDesc]
  | cons x xs ih => exact insertDesc_chain key x (sortDesc key xs) ih

namespace DailyProgressService

/-- One row of the `daily_progress` table as selected by the service
(`tg_id, completed_count, pages_read, distance_km, date`).  Numeric columns
may be null in a row, which the service defaults with `|| 0`. -/
structure ProgressRow where
  tg_id : ℤ
  completed_count : Option ℤ
  pages_read : Option ℤ
  distance_km : Option ℚ
  date : String
deriving DecidableEq

/-- Result shape of `getUserAllTimeStats`. -/
structure AllTimeStats where
  total_points : ℤ
  total_pages : ℤ
  total_distance : ℚ
  total_days : ℕ
deriving DecidableEq

/-- `DailyProgressService.getUserAllTimeStats` (supabaseService.js): reduce
the user's rows to all-time totals; each `reduce((sum, day) => sum +
(day.f || 0), 0)` becomes a left fold with missing values defaulted to 0,
and `total_days` is `data.length`. -/
def getUserAllTimeStats (data : List ProgressRow) : AllTimeStats :=
  { total_points := data.foldl (fun sum day => sum + day.completed_count.getD 0) 0
  , total_pages := data.foldl (fun sum day => sum + day.pages_read.getD 0) 0
  , total_distance := data.foldl (fun sum day => sum + day.distance_km.getD 0) 0
  , total_days := data.length }

/-- A row of the `users` table as selected for the leaderboard join
(`tg_id, name, photo_url, is_premium`), already filtered to approved
status by the query. -/
structure UserRow where
  tg_id : ℤ
  name : String
  photo_url : Option String
  is_premium : Bool
deriving DecidableEq

/-- The per-user aggregate accumulated in `userStats` inside
`getLeaderboardData`. -/
structure UserStats where
  total_points : ℤ
  total_pages : ℤ
  total_distance : ℚ
  days_count : ℕ
deriving DecidableEq

/-- A joined leaderboard row before rank/score decoration: identity fields
from the `users` row spread together with the aggregated stats. -/
structure LeaderboardUser where
  tg_id : ℤ
  name : String
  photo_url : Option String
  is_premium : Bool
  total_points : ℤ
  total_pages : ℤ
  total_distance : ℚ
  days_count : ℕ
deriving DecidableEq

/-- The achievement record pushed by
`LeaderboardController.calculateUserAchievements`. -/
structure Achievement where
  id : String
  name : String
  description : String
  category : String
  rarity : String
deriving DecidableEq

/-- A fully decorated leaderboard entry as returned by
`getLeaderboardData`: the joined row spread together with `rank`, `score`
and the (always empty) `achievements` array. -/
structure LeaderboardEntry where
  tg_id : ℤ
  name : String
  photo_url : Option String
  is_premium : Bool
  total_points : ℤ
  total_pages : ℤ
  total_distance : ℚ
  days_count : ℕ
  rank : ℕ
  score : ℚ
  achievements : List Achievement
deriving DecidableEq

/-- The `options` object taken by `getLeaderboardData`, with the JS default
values.  The controller passes an `offset` property as well; the service
body destructures only `period`, `type` and `limit` from it. -/
structure LeaderboardOptions where
  period : String := "all"
  type : String := "overall"
  limit : ℕ := 100
  offset : ℕ := 0
deriving DecidableEq

/-- The distinct `tg_id` values of the fetched progress rows
(`[...new Set(progressData.map(p => p.tg_id))]`), in order of first
appearance. -/
def userIdsOf (progressData : List ProgressRow) : List ℤ :=
  progressData.foldl (fun acc p => if p.tg_id ∈ acc then acc else acc ++ [p.tg_id]) []

/-- The `userStats[userId]` aggregate built by the `forEach` loop of
`getLeaderboardData`: sums of `completed_count`, `pages_read` and
`distance_km` (missing values defaulted with `|| 0`) and a `days_count`
of one per row, over the rows of one user. -/
def aggregateStats (userId : ℤ) (progressData : List ProgressRow) : UserStats :=
  let rows := progressData.filter (fun p => p.tg_id == userId)
  { total_points := rows.foldl (fun s p => s + p.completed_count.getD 0) 0
  , total_pages := rows.foldl (fun s p => s + p.pages_read.getD 0) 0
  , total_distance := rows.foldl (fun s p => s + p.distance_km.getD 0) 0
  , days_count := rows.length }

/-- The pre-sort leaderboard of `getLeaderboardData`:
`Object.entries(userStats).map(...)` joined with `users.find(...)`, rows
whose user is not in the approved `users` list dropped
(`.filter(Boolean)`). -/
def joinedUsers (progressData : List ProgressRow) (users : List UserRow) :
    List LeaderboardUser :=
  (userIdsOf progressData).filterMap (fun userId =>
    match users.find? (fun u => u.tg_id == userId) with
    | none => none
    | some user =>
      let stats := aggregateStats userId progressData
      some { tg_id := userId, name := user.name, photo_url := user.photo_url
           , is_premium := user.is_premium, total_points := stats.total_points
           , total_pages := stats.total_pages, total_distance := stats.total_distance
           , days_count := stats.days_count })

/-- The sort key selected by `getLeaderboardData`:
`type === 'reading' ? 'total_pages' : type === 'distance' ?
'total_distance' : 'total_points'` followed by the property access
`user[sortKey]`. -/
def sortKeyValue (type : String) (u : LeaderboardUser) : ℚ :=
  if type = "reading" then (u.total_pages : ℚ)
  else if type = "distance" then u.total_distance
  else (u.total_points : ℚ)

/-- The final `.slice(0, limit).map((user, index) => ({...user, rank:
index + 1, score: user[sortKey], achievements: []}))` decoration, embedded
with an explicit running index. -/
def addRankScore (key : LeaderboardUser → ℚ) : ℕ → List LeaderboardUser → List LeaderboardEntry
  | _, [] => []
  | index, u :: us =>
    { tg_id := u.tg_id, name := u.name, photo_url := u.photo_url
    , is_premium := u.is_premium, total_points := u.total_points
    , total_pages := u.total_pages, total_distance := u.total_distance
    , days_count := u.days_count, rank := index + 1, score := key u
    , achievements := [] } :: addRankScore key (index + 1) us

/-- `DailyProgressService.getLeaderboardData` (supabaseService.js), after
the two store fetches: `progressData` is the list of rows returned by the
period-filtered query and `users` the approved users matching their ids.
The body groups rows by user, joins with the users, sorts descending by
the selected key and decorates the first `limit` entries.  Note that the
body reads only `period`, `type` and `limit` from `options`; an `offset`
passed by the caller is never used, and `period` only affects the fetch
that produced `progressData`. -/
def getLeaderboardData (progressData : List ProgressRow) (users : List UserRow)
    (options : LeaderboardOptions) : List LeaderboardEntry :=
  let leaderboard := joinedUsers progressData users
  let key := sortKeyValue options.type
  addRankScore key 0 ((sortDesc key leaderboard).take options.limit)

end DailyProgressService

namespace LeaderboardController

open DailyProgressService

/-- `point_master` — 500+ total points (epic). -/
def pointMaster : Achievement :=
  { id := "point_master", name := "Point Master", description := "500+ total points"
  , category := "points", rarity := "epic" }

/-- `point_collector` — 100+ total points (rare). -/
def pointCollector : Achievement :=
  { id := "point_collector", name := "Point Collector", description := "100+ total points"
  , category := "points", rarity := "rare" }

/-- `library_master` — 1000+ pages read (legendary). -/
def libraryMaster : Achievement :=
  { id := "library_master", name := "Library Master", description := "1000+ pages read"
  , category := "reading", rarity := "legendary" }

/-- `book_lover` — 500+ pages read (epic). -/
def bookLover : Achievement :=
  { id := "book_lover", name := "Book Lover", description := "500+ pages read"
  , category := "reading", rarity := "epic" }

/-- `bookworm` — 100+ pages read (rare). -/
def bookworm : Achievement :=
  { id := "bookworm", name := "Bookworm", description := "100+ pages read"
  , category := "reading", rarity := "rare" }

/-- `ultra_runner` — 500+ km covered (legendary). -/
def ultraRunner : Achievement :=
  { id := "ultra_runner", name := "Ultra Runner", description := "500+ km covered"
  , category := "fitness", rarity := "legendary" }

/-- `marathon_hero` — 200+ km covered (epic). -/
def marathonHero : Achievement :=
  { id := "marathon_hero", name := "Marathon Hero", description := "200+ km covered"
  , category := "fitness", rarity := "epic" }

/-- `runner` — 50+ km covered (rare). -/
def runner : Achievement :=
  { id := "runner", name := "Runner", description := "50+ km covered"
  , category := "fitness", rarity := "rare" }

/-- `centurion` — 100+ days completed (legendary). -/
def centurion : Achievement :=
  { id := "centurion", name := "Centurion", description := "100+ days completed"
  , category := "consistency", rarity := "legendary" }

/-- `month_master` — 30+ days completed (epic). -/
def monthMaster : Achievement :=
  { id := "month_master", name := "Month Master", description := "30+ days completed"
  , category := "consistency", rarity := "epic" }

/-- `week_warrior` — 7+ days completed (rare). -/
def weekWarriorBadge : Achievement :=
  { id := "week_warrior", name := "Week Warrior", description := "7+ days completed"
  , category := "consistency", rarity := "rare" }

/-- The `// Points achievements` block of `calculateUserAchievements`:
an `if / else if` waterfall, so at most one push happens. -/
def pointsAchievementsOf (stats : UserStats) : List Achievement :=
  if 500 ≤ stats.total_points then [pointMaster]
  else if 100 ≤ stats.total_points then [pointCollector]
  else []

/-- The `// Reading achievements` block of `calculateUserAchievements`. -/
def readingAchievementsOf (stats : UserStats) : List Achievement :=
  if 1000 ≤ stats.total_pages then [libraryMaster]
  else if 500 ≤ stats.total_pages then [bookLover]
  else if 100 ≤ stats.total_pages then [bookworm]
  else []

/-- The `// Distance achievements` block of `calculateUserAchievements`. -/
def distanceAchievementsOf (stats : UserStats) : List Achievement :=
  if 500 ≤ stats.total_distance then [ultraRunner]
  else if 200 ≤ stats.total_distance then [marathonHero]
  else if 50 ≤ stats.total_distance then [runner]
  else []

/-- The `// Consistency achievements` block of `calculateUserAchievements`. -/
def consistencyAchievementsOf (stats : UserStats) : List Achievement :=
  if 100 ≤ stats.days_count then [centurion]
  else if 30 ≤ stats.days_count then [monthMaster]
  else if 7 ≤ stats.days_count then [weekWarriorBadge]
  else []

/-- `LeaderboardController.calculateUserAchievements`
(leaderboardController.js, tiered mode): the four threshold waterfalls
pushed into one `achievements` array in source order. -/
def calculateUserAchievements (stats : UserStats) : List Achievement :=
  pointsAchievementsOf stats ++ readingAchievementsOf stats
    ++ distanceAchievementsOf stats ++ consistencyAchievementsOf stats

/-- The `rarityScores[achievement.rarity] || 10` lookup of
`calculateAchievementScore`, with weights common 10 / rare 25 / epic 50 /
legendary 100 and default 10. -/
def rarityScore (rarity : String) : ℕ :=
  if rarity = "common" then 10
  else if rarity = "rare" then 25
  else if rarity = "epic" then 50
  else if rarity = "legendary" then 100
  else 10

/-- `LeaderboardController.calculateAchievementScore`: sum of the rarity
weights of the awarded achievements. -/
def calculateAchievementScore (achievements : List Achievement) : ℕ :=
  achievements.foldl (fun total a => total + rarityScore a.rarity) 0

/-- The `user_position` object built by `getUserLeaderboardPosition` when
the user is present in the full leaderboard. -/
structure UserPosition where
  rank : ℕ
  score : ℚ
  total_points : ℤ
  total_pages : ℤ
  total_distance : ℚ
  percentile : ℤ
deriving DecidableEq

/-- The position-locating core of
`LeaderboardController.getUserLeaderboardPosition`: `findIndex` over the
full leaderboard; absence (`-1` in JS) becomes `none` (the route then
answers `user_position: null`); at zero-based index `p` of `n` entries the
rank is `p + 1` and the percentile `Math.round((1 - p / n) * 100)`.  The
inner `match` re-reads `fullLeaderboard[userPosition]`, which is always
present when `findIndex` succeeded. -/
def getUserLeaderboardPosition (fullLeaderboard : List LeaderboardEntry)
    (telegramId : ℤ) : Option UserPosition :=
  match jsFindIndex (fun participant => participant.tg_id == telegramId) fullLeaderboard with
  | none => none
  | some userPosition =>
    match fullLeaderboard.get? userPosition with
    | none => none
    | some userStats =>
      some { rank := userPosition + 1
           , score := userStats.score
           , total_points := userStats.total_points
           , total_pages := userStats.total_pages
           , total_distance := userStats.total_distance
           , percentile := jsRound ((1 - (userPosition : ℚ) / (fullLeaderboard.length : ℚ)) * 100) }

/-- The statistics object returned by `calculateLeaderboardStats`.  The
`completion_distribution` is a JS object embedded as an association list:
empty input yields the empty object `{}`, non-empty input an object with
the five fixed range keys. -/
structure LeaderboardStatistics where
  total_participants : ℕ
  average_points : ℚ
  median_points : ℚ
  top_10_percent_threshold : ℚ
  most_active_score : ℚ
  completion_distribution : List (String × ℕ)
deriving DecidableEq

/-- The `completionRanges` counters of `calculateLeaderboardStats`. -/
structure CompletionRanges where
  r0to10 : ℕ
  r11to50 : ℕ
  r51to100 : ℕ
  r101to200 : ℕ
  r200plus : ℕ
deriving DecidableEq

/-- One step of the `scores.forEach` bucket loop: ascending first-match
threshold comparison (`<= 10`, `else <= 50`, `else <= 100`, `else <= 200`,
`else 200+`). -/
def bumpRange (c : CompletionRanges) (score : ℚ) : CompletionRanges :=
  if score ≤ 10 then { c with r0to10 := c.r0to10 + 1 }
  else if score ≤ 50 then { c with r11to50 := c.r11to50 + 1 }
  else if score ≤ 100 then { c with r51to100 := c.r51to100 + 1 }
  else if score ≤ 200 then { c with r101to200 := c.r101to200 + 1 }
  else { c with r200plus := c.r200plus + 1 }

/-- `Math.max(...scores)` for the non-empty case. -/
def maxScore : List ℚ → ℚ
  | [] => 0
  | s :: rest => rest.foldl max s

/-- `LeaderboardController.calculateLeaderboardStats`
(leaderboardController.js): descriptive statistics over the score column
of a leaderboard.  Empty input short-circuits to all-zero fields and an
empty distribution object; otherwise the scores are sorted descending and
`average` is the mean rounded to 2 decimals, `median` is
`scores[Math.floor(n / 2)]`, the top-10% threshold is
`scores[Math.floor(n * 0.1)]` (exact arithmetic: index `n / 10`),
`most_active_score` is `Math.max(...scores)` and the distribution counts
each score into its first matching bucket. -/
def calculateLeaderboardStats (leaderboardData : List LeaderboardEntry) :
    LeaderboardStatistics :=
  if leaderboardData.length = 0 then
    { total_participants := 0, average_points := 0, median_points := 0
    , top_10_percent_threshold := 0, most_active_score := 0
    , completion_distribution := [] }
  else
    let scores := sortDesc id (leaderboardData.map (fun user => user.score))
    let totalParticipants := leaderboardData.length
    let averagePoints := scores.foldl (fun sum score => sum + score) 0 / (totalParticipants : ℚ)
    let medianPoints := scores.getD (totalParticipants / 2) 0
    let top10PercentThreshold := scores.getD (totalParticipants / 10) 0
    let mostActiveScore := maxScore scores
    let completionRanges := scores.foldl bumpRange ⟨0, 0, 0, 0, 0⟩
    { total_participants := totalParticipants
    , average_points := jsRound2 averagePoints
    , median_points := medianPoints
    , top_10_percent_threshold := top10PercentThreshold
    , most_active_score := mostActiveScore
    , completion_distribution :=
        [ ("0-10", completionRanges.r0to10)
        , ("11-50", completionRanges.r11to50)
        , ("51-100", completionRanges.r51to100)
        , ("101-200", completionRanges.r101to200)
        , ("200+", completionRanges.r200plus) ] }

/-- One user of the achievement leaderboard before final decoration:
`{...user, achievements, achievement_count, achievement_score}`. -/
structure UserWithAchievements where
  user : LeaderboardEntry
  achievements : List Achievement
  achievement_count : ℕ
  achievement_score : ℕ
deriving DecidableEq

/-- A decorated row of the achievement leaderboard response. -/
structure AchieverEntry where
  rank : ℕ
  tg_id : ℤ
  name : String
  photo_url : Option String
  achievement_count : ℕ
  achievement_score : ℕ
  top_achievements : List Achievement
  is_premium : Bool
deriving DecidableEq

/-- The response payload of `getAchievementLeaderboard`. -/
structure AchievementLeaderboardResult where
  achievement_leaderboard : List AchieverEntry
  total_participants : ℕ
deriving DecidableEq

/-- The `.slice(0, limit).map((user, index) => ...)` decoration of the
achievement leaderboard, with the running index made explicit. -/
def decorateAchievers : ℕ → List UserWithAchievements → List AchieverEntry
  | _, [] => []
  | index, u :: us =>
    { rank := index + 1, tg_id := u.user.tg_id, name := u.user.name
    , photo_url := u.user.photo_url, achievement_count := u.achievement_count
    , achievement_score := u.achievement_score
    , top_achievements := u.achievements.take 3
    , is_premium := u.user.is_premium } :: decorateAchievers (index + 1) us

/-- `LeaderboardController.getAchievementLeaderboard`
(leaderboardController.js), after the store fetches: builds the all-time
overall leaderboard limited to `limit * 2` users, computes tiered
achievements and their score for each, sorts descending by achievement
score, and returns the first `limit` decorated entries together with
`total_participants = usersWithAchievements.length`. -/
def getAchievementLeaderboard (progressData : List ProgressRow)
    (users : List UserRow) (limit : ℕ) : AchievementLeaderboardResult :=
  let allUsersData := getLeaderboardData progressData users
    { period := "all", type := "overall", limit := limit * 2 }
  let usersWithAchievements := allUsersData.map (fun user =>
    let achievements := calculateUserAchievements
      { total_points := user.total_points, total_pages := user.total_pages
      , total_distance := user.total_distance, days_count := user.days_count }
    { user := user, achievements := achievements
    , achievement_count := achievements.length
    , achievement_score := calculateAchievementScore achievements })
  let sorted := sortDesc (fun u => (u.achievement_score : ℚ)) usersWithAchievements
  { achievement_leaderboard := decorateAchievers 0 (sorted.take limit)
  , total_participants := usersWithAchievements.length }

end LeaderboardController

namespace TasksController

open DailyProgressService

/-- A JSON value as it may appear in the `tasks` / `task_inputs` request
maps. -/
inductive JsonVal where
  | bool (b : Bool)
  | num (q : ℚ)
  | str (s : String)
  | null
deriving DecidableEq

/-- JavaScript truthiness, as used by `.filter(Boolean)`. -/
def truthy : JsonVal → Bool
  | .bool b => b
  | .num q => !(q == 0)
  | .str s => !(s == "")
  | .null => false

/-- Whether a JSON value is a boolean (`typeof tasks[taskId] === 'boolean'`). -/
def isBoolVal : JsonVal → Bool
  | .bool _ => true
  | _ => false

/-- A JS object keyed by task slot, embedded as an association list with
the numeric keys read as naturals. -/
abbrev TaskMap : Type := List (ℕ × JsonVal)

/-- The eight boolean task slots checked by `validateSubmissionData`. -/
def booleanTasks : List ℕ := [1, 2, 3, 4, 6, 7, 8, 9]

/-- `APP_CONSTANTS.TASKS.TOTAL_DAILY_TASKS` (config.js). -/
def TOTAL_DAILY_TASKS : ℕ := 10

/-- `APP_CONSTANTS.TASKS.MAX_PAGES_READ` (config.js). -/
def MAX_PAGES_READ : ℤ := 1000

/-- `APP_CONSTANTS.TASKS.MAX_DISTANCE` (config.js). -/
def MAX_DISTANCE : ℚ := 100

/-- `TasksController.validateSubmissionData` (tasksController.js), embedded
as an accept/reject boolean (the JS throws a 400 error on the first failed
check).  For each of the eight boolean task slots, a present value must be
a boolean; `pages_read` must lie in `[0, MAX_PAGES_READ]` and `distance_km`
in `[0, MAX_DISTANCE]`.  The `typeof tasks === 'object'` and
`typeof taskInputs === 'object'` guards are satisfied by construction of
the embedding (both arguments are maps); no other check is performed — in
particular no check at all on keys outside `booleanTasks` and none on the
number of keys. -/
def validateSubmissionData (tasks : TaskMap) (_taskInputs : TaskMap)
    (pagesRead : ℤ) (distanceKm : ℚ) : Bool :=
  (booleanTasks.all (fun taskId =>
    match tasks.lookup taskId with
    | none => true
    | some v => isBoolVal v))
  && decide (0 ≤ pagesRead) && decide (pagesRead ≤ MAX_PAGES_READ)
  && decide (0 ≤ distanceKm) && decide (distanceKm ≤ MAX_DISTANCE)

/-- `Object.values(tasks).filter(Boolean).length` — the server-side
recomputation of `completed_count` in `submitDailyProgress`. -/
def completedCountOf (tasks : TaskMap) : ℕ :=
  ((tasks.map Prod.snd).filter truthy).length

/-- The `progressData` record built by `submitDailyProgress` and handed to
the store upsert; the upsert returns the row as saved. -/
structure SavedProgress where
  tg_id : ℤ
  date : String
  tasks : TaskMap
  task_inputs : TaskMap
  pages_read : ℤ
  distance_km : ℚ
  completed_count : ℕ
  submission_time : String
deriving DecidableEq

/-- The achievement object returned by the post-submission check. -/
structure SimpleAchievement where
  id : String
  name : String
  description : String
  type : String
deriving DecidableEq

/-- `first_day` / `First Step` (`APP_CONSTANTS.ACHIEVEMENTS.NEWCOMER`). -/
def firstDayAchievement : SimpleAchievement :=
  { id := "first_day", name := "First Step"
  , description := "Complete your first day", type := "newcomer" }

/-- `week_warrior` / `Week Warrior` (`APP_CONSTANTS.ACHIEVEMENTS.CONSISTENT`). -/
def weekWarriorAchievement : SimpleAchievement :=
  { id := "week_warrior", name := "Week Warrior"
  , description := "Complete 7 days", type := "consistent" }

/-- `perfect_day` / `Perfect Day` (`APP_CONSTANTS.ACHIEVEMENTS.PERFECTIONIST`). -/
def perfectDayAchievement : SimpleAchievement :=
  { id := "perfect_day", name := "Perfect Day"
  , description := "Complete all 10 tasks in a day", type := "perfectionist" }

/-- `TasksController.checkForAchievements` (tasksController.js).  The fetch
of the user's all-time stats may fail, which the surrounding `try/catch`
turns into `return null`; the fetch outcome is passed in as an `Except`.
On success the three rules are evaluated in fixed order — first ever day,
exactly 7th cumulative day, today's `completed_count` equal to
`TOTAL_DAILY_TASKS` — and the first `return` wins. -/
def checkForAchievements
    (allTimeStatsResult : Except String AllTimeStats)
    (progress : SavedProgress) : Option SimpleAchievement :=
  match allTimeStatsResult with
  | .error _ => none
  | .ok allTimeStats =>
    if allTimeStats.total_days = 1 then some firstDayAchievement
    else if allTimeStats.total_days = 7 then some weekWarriorAchievement
    else if progress.completed_count = TOTAL_DAILY_TASKS then some perfectDayAchievement
    else none

/-- The request body of `POST /api/tasks/submit` after the Telegram-id and
approval checks.  The destructuring in `submitDailyProgress` reads only
`tg_id, tasks, task_inputs, pages_read, distance_km, date`; a
`completed_count` sent by the caller is carried here to show that it is
never read. -/
structure SubmitRequestBody where
  tg_id : ℤ
  tasks : TaskMap := []
  task_inputs : TaskMap := []
  pages_read : ℤ := 0
  distance_km : ℚ := 0
  date : Option String := none
  completed_count : Option ℕ := none
deriving DecidableEq

/-- The response payload assembled by `responseService.taskSubmission`. -/
structure TaskSubmissionResponse where
  total_points : ℕ
  completed : ℕ
  pages_read : ℤ
  distance_km : ℚ
  achievement_unlocked : Option SimpleAchievement
  submission_time : String
deriving DecidableEq

/-- `TasksController.submitDailyProgress` (tasksController.js), after the
user lookup: validate the submission, recompute `completed_count` from the
task map, build `progressData`, upsert it (the saved row is returned
alongside the response), run the achievement check (whose stats fetch
outcome is `allTimeStatsResult`), and answer with today's summary.  `today`
is the server date used when the body carries no date and `now` the
submission timestamp. -/
def submitDailyProgress (body : SubmitRequestBody) (today now : String)
    (allTimeStatsResult : Except String AllTimeStats) :
    Except String (SavedProgress × TaskSubmissionResponse) :=
  if validateSubmissionData body.tasks body.task_inputs body.pages_read body.distance_km then
    let targetDate := body.date.getD today
    let completedCount := completedCountOf body.tasks
    let progressData : SavedProgress :=
      { tg_id := body.tg_id, date := targetDate, tasks := body.tasks
      , task_inputs := body.task_inputs, pages_read := body.pages_read
      , distance_km := body.distance_km, completed_count := completedCount
      , submission_time := now }
    let savedProgress := progressData
    let achievementUnlocked := checkForAchievements allTimeStatsResult savedProgress
    .ok (savedProgress,
      { total_points := completedCount, completed := completedCount
      , pages_read := progressData.pages_read
      , distance_km := progressData.distance_km
      , achievement_unlocked := achievementUnlocked
      , submission_time := savedProgress.submission_time })
  else .error "Validation failed"

end TasksController

section FoldHelpers

theorem foldl_add_eq_sum {α β : Type} [AddCommMonoid β] (f : α → β) (l : List α) (a : β) :
    l.foldl (fun s x => s + f x) a = a + (l.map f).sum := by
  induction l generalizing a with
  | nil => simp
  | cons x xs ih => simp [ih, add_assoc]

theorem le_foldl_max (s : ℚ) (l : List ℚ) : s ≤ l.foldl max s := by
  induction l generalizing s with
  | nil => simp
  | cons x xs ih => exact le_trans (le_max_left s x) (ih (max s x))

theorem foldl_max_of_mem (s : ℚ) (l : List ℚ) (x : ℚ) (hx : x ∈ l) :
    x ≤ l.foldl max s := by
  induction l generalizing s with
  | nil => simp at hx
  | cons y ys ih =>
    rcases List.mem_cons.mp hx with rfl | hx
    · exact le_trans (le_max_right s x) (le_foldl_max _ _)
    · exact ih _ hx

theorem foldl_max_mem (s : ℚ) (l : List ℚ) : l.foldl max s = s ∨ l.foldl max s ∈ l := by
  induction l generalizing s with
  | nil => simp
  | cons x xs ih =>
    rcases ih (max s x) with h | h
    · rcases max_choice s x with hm | hm
      · left; rw [List.foldl_cons, h, hm]
      · right; rw [List.foldl_cons, h, hm]; simp
    · right; simp [h]

end FoldHelpers

namespace DailyProgressService

/-- C6: For any list of SubmissionRecords for a user, the stats aggregation
returns `total_points` equal to the sum of `completed_count` over the
records, `total_pages` equal to the sum of `pages_read`, `total_distance`
equal to the sum of `distance_km`, and `total_days` equal to the number of
records, with any missing numeric field treated as 0.  The same holds for
the per-user aggregation performed inside `getLeaderboardData` over the
user's own rows. -/
theorem getUserAllTimeStats_additive (data : List ProgressRow) :
    (getUserAllTimeStats data).total_points
        = (data.map (fun day => day.completed_count.getD 0)).sum
    ∧ (getUserAllTimeStats data).total_pages
        = (data.map (fun day => day.pages_read.getD 0)).sum
    ∧ (getUserAllTimeStats data).total_distance
        = (data.map (fun day => day.distance_km.getD 0)).sum
    ∧ (getUserAllTimeStats data).total_days = data.length
    ∧ ∀ userId : ℤ, aggregateStats userId data =
        { total_points :=
            ((data.filter (fun p => p.tg_id == userId)).map (fun p => p.completed_count.getD 0)).sum
        , total_pages :=
            ((data.filter (fun p => p.tg_id == userId)).map (fun p => p.pages_read.getD 0)).sum
        , total_distance :=
            ((data.filter (fun p => p.tg_id == userId)).map (fun p => p.distance_km.getD 0)).sum
        , days_count := (data.filter (fun p => p.tg_id == userId)).length } := by
  refine ⟨?_, ?_, ?_, rfl, ?_⟩
  · simpa using foldl_add_eq_sum (fun day : ProgressRow => day.completed_count.getD 0) data 0
  · simpa using foldl_add_eq_sum (fun day : ProgressRow => day.pages_read.getD 0) data 0
  · simpa using foldl_add_eq_sum (fun day : ProgressRow => day.distance_km.getD 0) data 0
  · intro userId
    unfold aggregateStats
    simp only [UserStats.mk.injEq]
    refine ⟨?_, ?_, ?_, by trivial⟩
    · simpa using foldl_add_eq_sum (fun p : ProgressRow => p.completed_count.getD 0)
        (data.filter (fun p => p.tg_id == userId)) 0
    · simpa using foldl_add_eq_sum (fun p : ProgressRow => p.pages_read.getD 0)
        (data.filter (fun p => p.tg_id == userId)) 0
    · simpa using foldl_add_eq_sum (fun p : ProgressRow => p.distance_km.getD 0)
        (data.filter (fun p => p.tg_id == userId)) 0

end DailyProgressService

namespace LeaderboardController

/-- C9: On an empty leaderboard the distribution analyzer returns all
numeric fields 0 and an empty `completion_distribution` map, without
throwing and without performing a division by zero (the `n = 0` branch is
taken before any division). -/
theorem calculateLeaderboardStats_empty :
    calculateLeaderboardStats [] =
      { total_participants := 0, average_points := 0, median_points := 0
      , top_10_percent_threshold := 0, most_active_score := 0
      , completion_distribution := [] } := rfl

end LeaderboardController

namespace LeaderboardController

theorem mem_pointsAchievementsOf (stats : DailyProgressService.UserStats)
    (a : DailyProgressService.Achievement) (h : a ∈ pointsAchievementsOf stats) :
    a.category = "points" := by
  unfold pointsAchievementsOf at h
  repeat' split at h
  all_goals simp_all [pointMaster, pointCollector]

theorem mem_readingAchievementsOf (stats : DailyProgressService.UserStats)
    (a : DailyProgressService.Achievement) (h : a ∈ readingAchievementsOf stats) :
    a.category = "reading" := by
  unfold readingAchievementsOf at h
  repeat' split at h
  all_goals simp_all [libraryMaster, bookLover, bookworm]

theorem mem_distanceAchievementsOf (stats : DailyProgressService.UserStats)
    (a : DailyProgressService.Achievement) (h : a ∈ distanceAchievementsOf stats) :
    a.category = "fitness" := by
  unfold distanceAchievementsOf at h
  repeat' split at h
  all_goals simp_all [ultraRunner, marathonHero, runner]

theorem mem_consistencyAchievementsOf (stats : DailyProgressService.UserStats)
    (a : DailyProgressService.Achievement) (h : a ∈ consistencyAchievementsOf stats) :
    a.category = "consistency" := by
  unfold consistencyAchievementsOf at h
  repeat' split at h
  all_goals simp_all [centurion, monthMaster, weekWarriorBadge]

theorem length_pointsAchievementsOf (stats : DailyProgressService.UserStats) :
    (pointsAchievementsOf stats).length ≤ 1 := by
  unfold pointsAchievementsOf
  repeat' split
  all_goals simp

theorem length_readingAchievementsOf (stats : DailyProgressService.UserStats) :
    (readingAchievementsOf stats).length ≤ 1 := by
  unfold readingAchievementsOf
  repeat' split
  all_goals simp

theorem length_distanceAchievementsOf (stats : DailyProgressService.UserStats) :
    (distanceAchievementsOf stats).length ≤ 1 := by
  unfold distanceAchievementsOf
  repeat' split
  all_goals simp

theorem length_consistencyAchievementsOf (stats : DailyProgressService.UserStats) :
    (consistencyAchievementsOf stats).length ≤ 1 := by
  unfold consistencyAchievementsOf
  repeat' split
  all_goals simp

theorem filter_category_block (c : String) (l : List DailyProgressService.Achievement)
    (cat : String) (hall : ∀ a ∈ l, a.category = cat) :
    l.filter (fun a => a.category == c) = if cat = c then l else [] := by
  split
  · rename_i hc
    refine List.filter_eq_self.mpr ?_
    intro a ha
    simp [hall a ha, hc]
  · rename_i hc
    refine List.filter_eq_nil_iff.mpr ?_
    intro a ha
    simp [hall a ha, hc]


theorem calculateUserAchievements_filter (stats : DailyProgressService.UserStats)
    (c : String) :
    (calculateUserAchievements stats).filter (fun a => a.category == c) =
      (if "points" = c then pointsAchievementsOf stats else [])
      ++ (if "reading" = c then readingAchievementsOf stats else [])
      ++ (if "fitness" = c then distanceAchievementsOf stats else [])
      ++ (if "consistency" = c then consistencyAchievementsOf stats else []) := by
  unfold calculateUserAchievements
  rw [List.filter_append, List.filter_append, List.filter_append]
  rw [filter_category_block c _ "points" (mem_pointsAchievementsOf stats),
      filter_category_block c _ "reading" (mem_readingAchievementsOf stats),
      filter_category_block c _ "fitness" (mem_distanceAchievementsOf stats),
      filter_category_block c _ "consistency" (mem_consistencyAchievementsOf stats)]

/-- C4: In tiered mode, for every stats input and each of the four
categories, `calculateUserAchievements` awards at most one badge per
category, namely the single highest tier whose threshold is met, with
thresholds points 500/100, pages 1000/500/100, distance 500/200/50, days
100/30/7; in particular `total_points = 600` yields exactly the epic
`point_master` badge and not also `point_collector`. -/
theorem calculateUserAchievements_tiered (stats : DailyProgressService.UserStats) :
    ((calculateUserAchievements stats).filter (fun a => a.category == "points")
        = if 500 ≤ stats.total_points then [pointMaster]
          else if 100 ≤ stats.total_points then [pointCollector] else [])
  ∧ ((calculateUserAchievements stats).filter (fun a => a.category == "reading")
        = if 1000 ≤ stats.total_pages then [libraryMaster]
          else if 500 ≤ stats.total_pages then [bookLover]
          else if 100 ≤ stats.total_pages then [bookworm] else [])
  ∧ ((calculateUserAchievements stats).filter (fun a => a.category == "fitness")
        = if 500 ≤ stats.total_distance then [ultraRunner]
          else if 200 ≤ stats.total_distance then [marathonHero]
          else if 50 ≤ stats.total_distance then [runner] else [])
  ∧ ((calculateUserAchievements stats).filter (fun a => a.category == "consistency")
        = if 100 ≤ stats.days_count then [centurion]
          else if 30 ≤ stats.days_count then [monthMaster]
          else if 7 ≤ stats.days_count then [weekWarriorBadge] else [])
  ∧ (∀ c : String,
      ((calculateUserAchievements stats).filter (fun a => a.category == c)).length ≤ 1)
  ∧ calculateUserAchievements
      { total_points := 600, total_pages := 0, total_distance := 0, days_count := 0 }
      = [pointMaster] := by
  refine ⟨?_, ?_, ?_, ?_, ?_, ?_⟩
  · rw [calculateUserAchievements_filter]
    simp only [pointsAchievementsOf]
    simp
  · rw [calculateUserAchievements_filter]
    simp only [readingAchievementsOf]
    simp
  · rw [calculateUserAchievements_filter]
    simp only [distanceAchievementsOf]
    simp
  · rw [calculateUserAchievements_filter]
    simp only [consistencyAchievementsOf]
    simp
  · intro c
    rw [calculateUserAchievements_filter]
    by_cases h1 : "points" = c
    · subst h1
      simpa using length_pointsAchievementsOf stats
    by_cases h2 : "reading" = c
    · subst h2
      simpa using length_readingAchievementsOf stats
    by_cases h3 : "fitness" = c
    · subst h3
      simpa using length_distanceAchievementsOf stats
    by_cases h4 : "consistency" = c
    · subst h4
      simpa using length_consistencyAchievementsOf stats
    simp [h1, h2, h3, h4]
  · decide

end LeaderboardController

namespace TasksController

/-- C5: The post-submission unlock check returns at most one achievement
(its result is a single `Option`), evaluating its rules in fixed priority
order — (1) first ever day, (2) exactly 7th cumulative day, (3) today's
`completed_count` equals 10 — with the first matching rule winning and
later rules not evaluated (in particular a 7th day wins over a perfect
day); and if evaluating the check fails (the stats fetch throws), the
result degrades to no achievement while the submission itself still
completes successfully with `achievement_unlocked = null`. -/
theorem checkForAchievements_priority :
    (∀ (stats : DailyProgressService.AllTimeStats) (progress : SavedProgress),
      stats.total_days = 1 →
        checkForAchievements (.ok stats) progress = some firstDayAchievement)
  ∧ (∀ (stats : DailyProgressService.AllTimeStats) (progress : SavedProgress),
      stats.total_days ≠ 1 → stats.total_days = 7 →
        checkForAchievements (.ok stats) progress = some weekWarriorAchievement)
  ∧ (∀ (stats : DailyProgressService.AllTimeStats) (progress : SavedProgress),
      stats.total_days ≠ 1 → stats.total_days ≠ 7 →
      progress.completed_count = TOTAL_DAILY_TASKS →
        checkForAchievements (.ok stats) progress = some perfectDayAchievement)
  ∧ (∀ (stats : DailyProgressService.AllTimeStats) (progress : SavedProgress),
      stats.total_days ≠ 1 → stats.total_days ≠ 7 →
      progress.completed_count ≠ TOTAL_DAILY_TASKS →
        checkForAchievements (.ok stats) progress = none)
  ∧ (∀ (e : String) (progress : SavedProgress),
        checkForAchievements (.error e) progress = none)
  ∧ (∀ (body : SubmitRequestBody) (today now : String) (e : String),
      validateSubmissionData body.tasks body.task_inputs body.pages_read body.distance_km
          = true →
      (submitDailyProgress body today now (.error e)).toOption.map
          (fun pr => pr.2.achievement_unlocked) = some none) := by
  refine ⟨?_, ?_, ?_, ?_, ?_, ?_⟩
  · intro stats progress h1
    simp [checkForAchievements, h1]
  · intro stats progress h1 h7
    simp [checkForAchievements, h1, h7]
  · intro stats progress h1 h7 hc
    simp [checkForAchievements, h1, h7, hc]
  · intro stats progress h1 h7 hc
    simp [checkForAchievements, h1, h7, hc]
  · intro e progress
    simp [checkForAchievements]
  · intro body today now e hvalid
    simp [submitDailyProgress, hvalid, Except.toOption, checkForAchievements]

/-- C5 witness: on a first-ever day (stats with `total_days = 1`) the check
returns the `first_day` achievement, and a failing stats fetch inside a
valid submission yields a successful response with no achievement. -/
theorem checkForAchievements_priority_witness :
    ((⟨0, 0, 0, 1⟩ : DailyProgressService.AllTimeStats).total_days = 1
      ∧ checkForAchievements
          (.ok (⟨0, 0, 0, 1⟩ : DailyProgressService.AllTimeStats))
          { tg_id := 1, date := "2024-01-01", tasks := [], task_inputs := []
          , pages_read := 0, distance_km := 0, completed_count := 0
          , submission_time := "t" } = some firstDayAchievement)
  ∧ (validateSubmissionData ({ tg_id := 1 } : SubmitRequestBody).tasks
        ({ tg_id := 1 } : SubmitRequestBody).task_inputs
        ({ tg_id := 1 } : SubmitRequestBody).pages_read
        ({ tg_id := 1 } : SubmitRequestBody).distance_km = true
      ∧ (submitDailyProgress ({ tg_id := 1 } : SubmitRequestBody) "2024-01-01" "t"
            (.error "boom")).toOption.map
          (fun pr => pr.2.achievement_unlocked) = some none) :=
  ⟨⟨rfl, checkForAchievements_priority.1 _ _ rfl⟩,
   ⟨by decide,
    checkForAchievements_priority.2.2.2.2.2 { tg_id := 1 } "2024-01-01" "t" "boom"
      (by decide)⟩⟩

/-- The C3 failing input: a task map with eleven `true` entries.  The eight
slots checked by `validateSubmissionData` hold booleans, and the keys `11`,
`12`, `13` are outside `booleanTasks`, so no check ever looks at them. -/
def overflowTasks : TaskMap :=
  [ (1, .bool true), (2, .bool true), (3, .bool true), (4, .bool true)
  , (6, .bool true), (7, .bool true), (8, .bool true), (9, .bool true)
  , (11, .bool true), (12, .bool true), (13, .bool true) ]

/-- The C3 failing request body: the caller even sends a (lying)
`completed_count` of 3, which the controller never reads. -/
def overflowBody : SubmitRequestBody :=
  { tg_id := 99, tasks := overflowTasks, task_inputs := [], pages_read := 0
  , distance_km := 0, date := some "2024-01-05", completed_count := some 3 }

/-- C3: the submission path accepts `overflowBody` (it passes
`validateSubmissionData`), recomputes `completed_count` server-side as the
number of truthy entries of the task map — ignoring the caller's
`completed_count` of 3 — and saves it as 11, violating the claimed
invariant `completed_count ≤ 10`. -/
theorem submitDailyProgress_completed_count_overflow :
    validateSubmissionData overflowBody.tasks overflowBody.task_inputs
        overflowBody.pages_read overflowBody.distance_km = true
  ∧ overflowBody.completed_count = some 3
  ∧ (submitDailyProgress overflowBody "2024-01-05" "t0"
        (.ok ⟨0, 0, 0, 0⟩)).toOption.map (fun pr => pr.1.completed_count) = some 11
  ∧ completedCountOf overflowBody.tasks = 11
  ∧ ¬ (completedCountOf overflowBody.tasks ≤ TOTAL_DAILY_TASKS) := by
  refine ⟨by decide, by decide, ?_, by decide, by decide⟩
  decide

end TasksController

theorem jsFindIndex_bound {α : Type} (f : α → Bool) (l : List α) (p : ℕ)
    (h : jsFindIndex f l = some p) :
    p < l.length ∧ ∃ x, l.get? p = some x ∧ f x = true := by
  induction l generalizing p with
  | nil => simp [jsFindIndex] at h
  | cons x xs ih =>
    simp only [jsFindIndex] at h
    by_cases hf : f x
    · simp only [hf, if_true, Option.some.injEq] at h
      subst h
      exact ⟨Nat.succ_pos _, x, rfl, hf⟩
    · simp only [hf, if_false, Bool.false_eq_true, Option.map_eq_some'] at h
      obtain ⟨q, hq, rfl⟩ := h
      obtain ⟨hlt, y, hy, hfy⟩ := ih q hq
      exact ⟨Nat.succ_lt_succ hlt, y, by simpa using hy, hfy⟩

namespace LeaderboardController

/-- C7: if the target user appears at zero-based position `p` of a full
leaderboard of size `n > 0` (the position found by `findIndex`), the
position locator answers with `percentile = round((1 - p/n) * 100)`; in
particular `p = 0, n = 10` gives 100 and `p = 9, n = 10` gives 10. -/
theorem getUserLeaderboardPosition_percentile
    (fullLeaderboard : List DailyProgressService.LeaderboardEntry)
    (telegramId : ℤ) (p : ℕ)
    (hfind : jsFindIndex (fun participant => participant.tg_id == telegramId)
        fullLeaderboard = some p) :
    ∃ pos, getUserLeaderboardPosition fullLeaderboard telegramId = some pos
      ∧ pos.percentile
          = round ((1 - (p : ℚ) / (fullLeaderboard.length : ℚ)) * 100)
      ∧ pos.rank = p + 1
      ∧ (fullLeaderboard.length = 10 → p = 0 → pos.percentile = 100)
      ∧ (fullLeaderboard.length = 10 → p = 9 → pos.percentile = 10) := by
  obtain ⟨hlt, x, hx, hfx⟩ :=
    jsFindIndex_bound (fun participant => participant.tg_id == telegramId) fullLeaderboard p hfind
  refine ⟨{ rank := p + 1, score := x.score, total_points := x.total_points
          , total_pages := x.total_pages, total_distance := x.total_distance
          , percentile := jsRound ((1 - (p : ℚ) / (fullLeaderboard.length : ℚ)) * 100) }
        , ?_, ?_, rfl, ?_, ?_⟩
  · unfold getUserLeaderboardPosition
    rw [hfind]
    rw [List.get?_eq_getElem?] at hx
    simp [hx]
  · simp [jsRound, round_eq]
  · intro hn hp
    subst hp
    rw [hn]
    norm_num [jsRound]
  · intro hn hp
    subst hp
    rw [hn]
    norm_num [jsRound]

end LeaderboardController

namespace C7Data

open DailyProgressService

/-- A minimal leaderboard entry used to instantiate the percentile theorem. -/
def plainEntry (i : ℤ) : LeaderboardEntry :=
  { tg_id := i, name := "user", photo_url := none, is_premium := false
  , total_points := 0, total_pages := 0, total_distance := 0, days_count := 0
  , rank := 0, score := 0, achievements := [] }

/-- A concrete 10-entry leaderboard with ids 1..10. -/
def tenEntries : List LeaderboardEntry :=
  [ plainEntry 1, plainEntry 2, plainEntry 3, plainEntry 4, plainEntry 5
  , plainEntry 6, plainEntry 7, plainEntry 8, plainEntry 9, plainEntry 10 ]

end C7Data

/-- C7 witness: user 1 sits at zero-based position 0 of the concrete
10-entry leaderboard, and the locator reports percentile 100 for it. -/
theorem getUserLeaderboardPosition_percentile_witness :
    jsFindIndex (fun participant => participant.tg_id == (1 : ℤ)) C7Data.tenEntries
        = some 0
  ∧ ∃ pos,
      LeaderboardController.getUserLeaderboardPosition C7Data.tenEntries 1 = some pos
      ∧ pos.percentile = round ((1 - (0 : ℚ) / (C7Data.tenEntries.length : ℚ)) * 100)
      ∧ pos.rank = 0 + 1
      ∧ (C7Data.tenEntries.length = 10 → 0 = 0 → pos.percentile = 100)
      ∧ (C7Data.tenEntries.length = 10 → (0 : ℕ) = 9 → pos.percentile = 10) :=
  ⟨by decide,
   LeaderboardController.getUserLeaderboardPosition_percentile C7Data.tenEntries 1 0
     (by decide)⟩

namespace LeaderboardController

theorem foldl_bumpRange_counts (l : List ℚ) (c : CompletionRanges) :
    l.foldl bumpRange c =
      { r0to10 := c.r0to10 + l.countP (fun s => decide (s ≤ 10))
      , r11to50 := c.r11to50 + l.countP (fun s => !decide (s ≤ 10) && decide (s ≤ 50))
      , r51to100 := c.r51to100 + l.countP (fun s => !decide (s ≤ 50) && decide (s ≤ 100))
      , r101to200 := c.r101to200 + l.countP (fun s => !decide (s ≤ 100) && decide (s ≤ 200))
      , r200plus := c.r200plus + l.countP (fun s => !decide (s ≤ 200)) } := by
  induction l generalizing c with
  | nil => simp
  | cons x xs ih =>
    rw [List.foldl_cons, ih (bumpRange c x)]
    rcases le_or_lt x 10 with h1 | h1
    · have h2 : x ≤ 50 := le_trans h1 (by norm_num)
      have h3 : x ≤ 100 := le_trans h1 (by norm_num)
      have h4 : x ≤ 200 := le_trans h1 (by norm_num)
      simp [bumpRange, h1, h2, h3, h4, List.countP_cons, CompletionRanges.mk.injEq]
      omega
    rcases le_or_lt x 50 with h2 | h2
    · have hn1 : ¬ x ≤ 10 := not_le.mpr h1
      have h3 : x ≤ 100 := le_trans h2 (by norm_num)
      have h4 : x ≤ 200 := le_trans h2 (by norm_num)
      simp [bumpRange, hn1, h2, h3, h4, List.countP_cons, CompletionRanges.mk.injEq]
      omega
    rcases le_or_lt x 100 with h3 | h3
    · have hn1 : ¬ x ≤ 10 := not_le.mpr h1
      have hn2 : ¬ x ≤ 50 := not_le.mpr h2
      have h4 : x ≤ 200 := le_trans h3 (by norm_num)
      simp [bumpRange, hn1, hn2, h3, h4, List.countP_cons, CompletionRanges.mk.injEq]
      omega
    rcases le_or_lt x 200 with h4 | h4
    · have hn1 : ¬ x ≤ 10 := not_le.mpr h1
      have hn2 : ¬ x ≤ 50 := not_le.mpr h2
      have hn3 : ¬ x ≤ 100 := not_le.mpr h3
      simp [bumpRange, hn1, hn2, hn3, h4, List.countP_cons, CompletionRanges.mk.injEq]
      omega
    · have hn1 : ¬ x ≤ 10 := not_le.mpr h1
      have hn2 : ¬ x ≤ 50 := not_le.mpr h2
      have hn3 : ¬ x ≤ 100 := not_le.mpr h3
      have hn4 : ¬ x ≤ 200 := not_le.mpr h4
      simp [bumpRange, hn1, hn2, hn3, hn4, List.countP_cons, CompletionRanges.mk.injEq]
      omega

theorem bucket_counts_sum (l : List ℚ) :
    l.countP (fun s => decide (s ≤ 10))
      + l.countP (fun s => !decide (s ≤ 10) && decide (s ≤ 50))
      + l.countP (fun s => !decide (s ≤ 50) && decide (s ≤ 100))
      + l.countP (fun s => !decide (s ≤ 100) && decide (s ≤ 200))
      + l.countP (fun s => !decide (s ≤ 200)) = l.length := by
  induction l with
  | nil => simp
  | cons x xs ih =>
    simp only [List.countP_cons, List.length_cons]
    rcases le_or_lt x 10 with h1 | h1
    · have h2 : x ≤ 50 := le_trans h1 (by norm_num)
      have h3 : x ≤ 100 := le_trans h1 (by norm_num)
      have h4 : x ≤ 200 := le_trans h1 (by norm_num)
      simp [h1, h2, h3, h4]
      omega
    rcases le_or_lt x 50 with h2 | h2
    · have hn1 : ¬ x ≤ 10 := not_le.mpr h1
      have h3 : x ≤ 100 := le_trans h2 (by norm_num)
      have h4 : x ≤ 200 := le_trans h2 (by norm_num)
      simp [hn1, h2, h3, h4]
      omega
    rcases le_or_lt x 100 with h3 | h3
    · have hn1 : ¬ x ≤ 10 := not_le.mpr h1
      have hn2 : ¬ x ≤ 50 := not_le.mpr h2
      have h4 : x ≤ 200 := le_trans h3 (by norm_num)
      simp [hn1, hn2, h3, h4]
      omega
    rcases le_or_lt x 200 with h4 | h4
    · have hn1 : ¬ x ≤ 10 := not_le.mpr h1
      have hn2 : ¬ x ≤ 50 := not_le.mpr h2
      have hn3 : ¬ x ≤ 100 := not_le.mpr h3
      simp [hn1, hn2, hn3, h4]
      omega
    · have hn1 : ¬ x ≤ 10 := not_le.mpr h1
      have hn2 : ¬ x ≤ 50 := not_le.mpr h2
      have hn3 : ¬ x ≤ 100 := not_le.mpr h3
      have hn4 : ¬ x ≤ 200 := not_le.mpr h4
      simp [hn1, hn2, hn3, hn4]
      omega

theorem maxScore_mem (l : List ℚ) (h : l ≠ []) : maxScore l ∈ l := by
  cases l with
  | nil => simp at h
  | cons x xs =>
    unfold maxScore
    rcases foldl_max_mem x xs with h1 | h1
    · simp [h1]
    · simp [h1]

theorem maxScore_ge (l : List ℚ) (s : ℚ) (hs : s ∈ l) : s ≤ maxScore l := by
  cases l with
  | nil => simp at hs
  | cons x xs =>
    unfold maxScore
    rcases List.mem_cons.mp hs with rfl | hmem
    · exact le_foldl_max s xs
    · exact foldl_max_of_mem x xs s hmem

/-- C8: For every non-empty leaderboard, the distribution analyzer returns
`median` equal to `scores[floor(n/2)]` taken directly from the
descending-sorted score column, `top_10_percent_threshold` equal to
`scores[floor(n * 0.1)]`, `most_active_score` equal to the maximum score,
`average` equal to the mean rounded to 2 decimals, and a
`completion_distribution` whose five buckets count each score exactly once
by ascending first-match threshold comparison (`<= 10`, else `<= 50`, else
`<= 100`, else `<= 200`, else `200+`), so the bucket counts sum to `n`. -/
theorem calculateLeaderboardStats_nonempty
    (lb : List DailyProgressService.LeaderboardEntry) (h : lb ≠ []) :
    (calculateLeaderboardStats lb).total_participants = lb.length
  ∧ (calculateLeaderboardStats lb).median_points
      = (sortDesc id (lb.map (fun user => user.score))).getD (lb.length / 2) 0
  ∧ (calculateLeaderboardStats lb).top_10_percent_threshold
      = (sortDesc id (lb.map (fun user => user.score))).getD (lb.length / 10) 0
  ∧ List.Chain' (fun a b : ℚ => b ≤ a) (sortDesc id (lb.map (fun user => user.score)))
  ∧ (calculateLeaderboardStats lb).most_active_score ∈ lb.map (fun user => user.score)
  ∧ (∀ s ∈ lb.map (fun user => user.score),
      s ≤ (calculateLeaderboardStats lb).most_active_score)
  ∧ (calculateLeaderboardStats lb).average_points
      = (round (((lb.map (fun user => user.score)).sum / (lb.length : ℚ)) * 100) : ℚ) / 100
  ∧ (calculateLeaderboardStats lb).completion_distribution =
      [ ("0-10", (lb.map (fun user => user.score)).countP (fun s => decide (s ≤ 10)))
      , ("11-50", (lb.map (fun user => user.score)).countP
            (fun s => !decide (s ≤ 10) && decide (s ≤ 50)))
      , ("51-100", (lb.map (fun user => user.score)).countP
            (fun s => !decide (s ≤ 50) && decide (s ≤ 100)))
      , ("101-200", (lb.map (fun user => user.score)).countP
            (fun s => !decide (s ≤ 100) && decide (s ≤ 200)))
      , ("200+", (lb.map (fun user => user.score)).countP (fun s => !decide (s ≤ 200))) ]
  ∧ (lb.map (fun user => user.score)).countP (fun s => decide (s ≤ 10))
      + (lb.map (fun user => user.score)).countP (fun s => !decide (s ≤ 10) && decide (s ≤ 50))
      + (lb.map (fun user => user.score)).countP (fun s => !decide (s ≤ 50) && decide (s ≤ 100))
      + (lb.map (fun user => user.score)).countP (fun s => !decide (s ≤ 100) && decide (s ≤ 200))
      + (lb.map (fun user => user.score)).countP (fun s => !decide (s ≤ 200))
      = lb.length := by
  have hne : ¬ (lb.length = 0) := by
    simpa [List.length_eq_zero] using h
  have hperm := sortDesc_perm (id : ℚ → ℚ) (lb.map (fun user => user.score))
  have hstats : calculateLeaderboardStats lb =
      { total_participants := lb.length
      , average_points := jsRound2
          ((sortDesc id (lb.map (fun user => user.score))).foldl
            (fun sum score => sum + score) 0 / (lb.length : ℚ))
      , median_points :=
          (sortDesc id (lb.map (fun user => user.score))).getD (lb.length / 2) 0
      , top_10_percent_threshold :=
          (sortDesc id (lb.map (fun user => user.score))).getD (lb.length / 10) 0
      , most_active_score := maxScore (sortDesc id (lb.map (fun user => user.score)))
      , completion_distribution :=
          [ ("0-10", ((sortDesc id (lb.map (fun user => user.score))).foldl
                bumpRange ⟨0, 0, 0, 0, 0⟩).r0to10)
          , ("11-50", ((sortDesc id (lb.map (fun user => user.score))).foldl
                bumpRange ⟨0, 0, 0, 0, 0⟩).r11to50)
          , ("51-100", ((sortDesc id (lb.map (fun user => user.score))).foldl
                bumpRange ⟨0, 0, 0, 0, 0⟩).r51to100)
          , ("101-200", ((sortDesc id (lb.map (fun user => user.score))).foldl
                bumpRange ⟨0, 0, 0, 0, 0⟩).r101to200)
          , ("200+", ((sortDesc id (lb.map (fun user => user.score))).foldl
                bumpRange ⟨0, 0, 0, 0, 0⟩).r200plus) ] } := by
    unfold calculateLeaderboardStats
    rw [if_neg hne]
  have hsortne : sortDesc id (lb.map (fun user => user.score)) ≠ [] := by
    intro hnil
    apply hne
    have := sortDesc_length (id : ℚ → ℚ) (lb.map (fun user => user.score))
    rw [hnil] at this
    simpa using this.symm
  refine ⟨by rw [hstats], by rw [hstats], by rw [hstats], ?_, ?_, ?_, ?_, ?_, ?_⟩
  · simpa using sortDesc_chain (id : ℚ → ℚ) (lb.map (fun user => user.score))
  · rw [hstats]
    exact hperm.mem_iff.mp (maxScore_mem _ hsortne)
  · intro s hs
    rw [hstats]
    exact maxScore_ge _ s (hperm.mem_iff.mpr hs)
  · rw [hstats]
    have hsum : (sortDesc id (lb.map (fun user => user.score))).foldl
        (fun sum score => sum + score) 0 = (lb.map (fun user => user.score)).sum := by
      have hf := foldl_add_eq_sum (fun q : ℚ => q)
        (sortDesc id (lb.map (fun user => user.score))) 0
      simpa [hperm.sum_eq] using hf
    rw [hsum, jsRound2, jsRound, round_eq]
  · rw [hstats, foldl_bumpRange_counts]
    simp only [Nat.zero_add]
    rw [List.Perm.countP_eq _ hperm, List.Perm.countP_eq _ hperm,
        List.Perm.countP_eq _ hperm, List.Perm.countP_eq _ hperm,
        List.Perm.countP_eq _ hperm]
  · rw [bucket_counts_sum]
    simp

end LeaderboardController

namespace C8Data

open DailyProgressService

/-- A concrete one-entry leaderboard used to instantiate the distribution
theorem. -/
def oneEntry : List LeaderboardEntry :=
  [ { tg_id := 7, name := "solo", photo_url := none, is_premium := false
    , total_points := 13, total_pages := 0, total_distance := 0, days_count := 2
    , rank := 1, score := 13, achievements := [] } ]

end C8Data

/-- C8 witness: the distribution theorem instantiated at a concrete
non-empty leaderboard. -/
theorem calculateLeaderboardStats_nonempty_witness :
    C8Data.oneEntry ≠ []
  ∧ (LeaderboardController.calculateLeaderboardStats C8Data.oneEntry).total_participants
      = C8Data.oneEntry.length :=
  ⟨by decide,
   (LeaderboardController.calculateLeaderboardStats_nonempty C8Data.oneEntry (by decide)).1⟩

namespace DailyProgressService

theorem addRankScore_chain (key : LeaderboardUser → ℚ) (l : List LeaderboardUser)
    (i : ℕ) (h : List.Chain' (fun a b => key b ≤ key a) l) :
    List.Chain' (fun a b : LeaderboardEntry => b.score ≤ a.score)
      (addRankScore key i l) := by
  induction l generalizing i with
  | nil => simp [addRankScore]
  | cons x xs ih =>
    cases xs with
    | nil => simp [addRankScore]
    | cons y ys =>
      simp only [addRankScore]
      refine List.chain'_cons.mpr ⟨?_, ?_⟩
      · exact (List.chain'_cons.mp h).1
      · have := ih (i + 1) h.tail
        simpa [addRankScore] using this

theorem addRankScore_fields (key : LeaderboardUser → ℚ) (l : List LeaderboardUser)
    (i : ℕ) (e : LeaderboardEntry) (he : e ∈ addRankScore key i l) :
    ∃ u ∈ l, e.score = key u ∧ e.total_points = u.total_points
      ∧ e.total_pages = u.total_pages ∧ e.total_distance = u.total_distance
      ∧ e.days_count = u.days_count ∧ e.tg_id = u.tg_id := by
  induction l generalizing i with
  | nil => simp [addRankScore] at he
  | cons x xs ih =>
    simp only [addRankScore, List.mem_cons] at he
    rcases he with rfl | he
    · exact ⟨x, by simp, rfl, rfl, rfl, rfl, rfl, rfl⟩
    · obtain ⟨u, hu, hs⟩ := ih (i + 1) he
      exact ⟨u, by simp [hu], hs⟩

/-- C1 (amended): For every built leaderboard the entries are sorted in
non-increasing order of the key actually selected by `type` — reading
selects `total_pages`, distance selects `total_distance`, and every other
type, including `consistency` and the default `overall`, selects
`total_points` — and every entry's `score` equals that entry's value of
that key, so `entries[i].score >= entries[i+1].score` for all valid `i`. -/
theorem getLeaderboardData_sorted (progressData : List ProgressRow)
    (users : List UserRow) (options : LeaderboardOptions) :
    List.Chain' (fun a b : LeaderboardEntry => b.score ≤ a.score)
      (getLeaderboardData progressData users options)
  ∧ ∀ e ∈ getLeaderboardData progressData users options,
      e.score = (if options.type = "reading" then (e.total_pages : ℚ)
                 else if options.type = "distance" then e.total_distance
                 else (e.total_points : ℚ)) := by
  constructor
  · exact addRankScore_chain _ _ 0
      ((sortDesc_chain (sortKeyValue options.type) (joinedUsers progressData users)).take
        options.limit)
  · intro e he
    obtain ⟨u, _, hscore, hpoints, hpages, hdist, _, _⟩ :=
      addRankScore_fields (sortKeyValue options.type) _ 0 e he
    rw [hscore, hpoints, hpages, hdist]
    unfold sortKeyValue
    rfl

end DailyProgressService

namespace C1Data

open DailyProgressService

/-- A progress row with only `completed_count` present. -/
def row (id : ℤ) (d : String) (cc : ℤ) : ProgressRow :=
  { tg_id := id, completed_count := some cc, pages_read := none
  , distance_km := none, date := d }

/-- User 1 submits five days with 1 point each (days_count 5, points 5);
user 2 submits one day with 10 points (days_count 1, points 10). -/
def rows : List ProgressRow :=
  [ row 1 "2024-01-01" 1, row 1 "2024-01-02" 1, row 1 "2024-01-03" 1
  , row 1 "2024-01-04" 1, row 1 "2024-01-05" 1, row 2 "2024-01-01" 10 ]

/-- Both users are approved. -/
def users : List UserRow :=
  [ { tg_id := 1, name := "A", photo_url := none, is_premium := false }
  , { tg_id := 2, name := "B", photo_url := none, is_premium := false } ]

/-- A `consistency` leaderboard request. -/
def options : LeaderboardOptions :=
  { period := "all", type := "consistency", limit := 100, offset := 0 }

end C1Data

/-- C1 counterexample: on the `consistency` leaderboard built from
`C1Data`, the entries are *not* sorted by `days_count` and the scores do
*not* equal `days_count` — the sort key for `consistency` falls through to
`total_points`, so user 2 (days_count 1, points 10) is ranked above user 1
(days_count 5, points 5). -/
theorem getLeaderboardData_consistency_cx :
    (DailyProgressService.getLeaderboardData C1Data.rows C1Data.users
        C1Data.options).map (fun e => e.days_count) = [1, 5]
  ∧ ¬ (List.Chain'
        (fun a b : DailyProgressService.LeaderboardEntry => b.days_count ≤ a.days_count)
        (DailyProgressService.getLeaderboardData C1Data.rows C1Data.users C1Data.options)
      ∧ ∀ e ∈ DailyProgressService.getLeaderboardData C1Data.rows C1Data.users C1Data.options,
          e.score = (e.days_count : ℚ)) := by
  have hmap : (DailyProgressService.getLeaderboardData C1Data.rows C1Data.users
      C1Data.options).map (fun e => e.days_count) = [1, 5] := by decide
  refine ⟨hmap, ?_⟩
  intro hcl
  obtain ⟨hchain, -⟩ := hcl
  cases hlb : DailyProgressService.getLeaderboardData C1Data.rows C1Data.users
      C1Data.options with
  | nil => rw [hlb] at hmap; simp at hmap
  | cons a t =>
    cases t with
    | nil => rw [hlb] at hmap; simp at hmap
    | cons b t2 =>
      cases t2 with
      | cons c t3 => rw [hlb] at hmap; simp at hmap
      | nil =>
        rw [hlb] at hmap hchain
        simp only [List.map_cons, List.map_nil, List.cons.injEq] at hmap
        obtain ⟨ha, hb, -⟩ := hmap
        have hle := (List.chain'_cons.mp hchain).1
        omega

namespace C2Data

open DailyProgressService

/-- User 1 has 10 points, user 2 has 5 points. -/
def rows : List ProgressRow :=
  [ C1Data.row 1 "2024-01-01" 10, C1Data.row 2 "2024-01-01" 5 ]

/-- Both users are approved. -/
def users : List UserRow :=
  [ { tg_id := 1, name := "A", photo_url := none, is_premium := false }
  , { tg_id := 2, name := "B", photo_url := none, is_premium := false } ]

/-- A request for the page `[offset, offset + limit) = [1, 2)`: with
`limit = 1` and `offset = 1` the claim expects exactly the entry at global
sorted position 1 (user 2, rank 2). -/
def options : LeaderboardOptions :=
  { period := "all", type := "overall", limit := 1, offset := 1 }

end C2Data

/-- C2: `getLeaderboardData` ignores `offset` entirely — its body
destructures only `period`, `type` and `limit` from the options.  On
`C2Data` with `limit = 1, offset = 1` it returns the entry at global
position 0 (user 1, rank 1) instead of the claimed page `[1, 2)` (user 2,
rank 2), and the result is identical to the `offset = 0` request. -/
theorem getLeaderboardData_offset_ignored :
    C2Data.options.offset = 1
  ∧ (DailyProgressService.getLeaderboardData C2Data.rows C2Data.users C2Data.options).map
      (fun e => (e.tg_id, e.rank)) = [(1, 1)]
  ∧ ¬ ((DailyProgressService.getLeaderboardData C2Data.rows C2Data.users C2Data.options).map
      (fun e => (e.tg_id, e.rank)) = [(2, 2)])
  ∧ (DailyProgressService.getLeaderboardData C2Data.rows C2Data.users
        { period := "all", type := "overall", limit := 1, offset := 0 }).map
      (fun e => (e.tg_id, e.rank)) = [(1, 1)] := by
  refine ⟨rfl, by decide, by decide, by decide⟩

namespace DailyProgressService

theorem addRankScore_length (key : LeaderboardUser → ℚ) (l : List LeaderboardUser)
    (i : ℕ) : (addRankScore key i l).length = l.length := by
  induction l generalizing i with
  | nil => rfl
  | cons x xs ih => simp [addRankScore, ih]

theorem getLeaderboardData_length (progressData : List ProgressRow)
    (users : List UserRow) (options : LeaderboardOptions) :
    (getLeaderboardData progressData users options).length
      = min options.limit (joinedUsers progressData users).length := by
  unfold getLeaderboardData
  rw [addRankScore_length, List.length_take, sortDesc_length]

end DailyProgressService

namespace LeaderboardController

theorem decorateAchievers_tg_id (i : ℕ) (l : List UserWithAchievements)
    (e : AchieverEntry) (he : e ∈ decorateAchievers i l) :
    ∃ u ∈ l, e.tg_id = u.user.tg_id := by
  induction l generalizing i with
  | nil => simp [decorateAchievers] at he
  | cons x xs ih =>
    simp only [decorateAchievers, List.mem_cons] at he
    rcases he with rfl | he
    · exact ⟨x, by simp, rfl⟩
    · obtain ⟨u, hu, ht⟩ := ih (i + 1) he
      exact ⟨u, by simp [hu], ht⟩

/-- C10: the achievement leaderboard is computed only over the candidate
pool of at most `2 * limit` users taken from the top of the all-time
overall (`total_points`) leaderboard: `total_participants` is the size of
that pool — `min (2 * limit)` (number of joined submitters), not the
number of all approved users with records — and every entry of the
achievement leaderboard is one of the first `2 * limit` users of the
overall-sorted list, so any user ranked below position `2 * limit` by
`total_points` is excluded regardless of achievement score. -/
theorem getAchievementLeaderboard_pool
    (progressData : List DailyProgressService.ProgressRow)
    (users : List DailyProgressService.UserRow) (limit : ℕ) :
    (getAchievementLeaderboard progressData users limit).total_participants
        = (DailyProgressService.getLeaderboardData progressData users
            { period := "all", type := "overall", limit := limit * 2 }).length
  ∧ (getAchievementLeaderboard progressData users limit).total_participants
        = min (limit * 2)
            (DailyProgressService.joinedUsers progressData users).length
  ∧ (getAchievementLeaderboard progressData users limit).total_participants ≤ limit * 2
  ∧ ∀ e ∈ (getAchievementLeaderboard progressData users limit).achievement_leaderboard,
      e.tg_id ∈ ((sortDesc (DailyProgressService.sortKeyValue "overall")
            (DailyProgressService.joinedUsers progressData users)).take
          (limit * 2)).map (fun u => u.tg_id) := by
  have hlen : (getAchievementLeaderboard progressData users limit).total_participants
      = (DailyProgressService.getLeaderboardData progressData users
          { period := "all", type := "overall", limit := limit * 2 }).length := by
    unfold getAchievementLeaderboard
    simp
  refine ⟨hlen, ?_, ?_, ?_⟩
  · rw [hlen, DailyProgressService.getLeaderboardData_length]
  · rw [hlen, DailyProgressService.getLeaderboardData_length]
    exact min_le_left _ _
  · intro e he
    obtain ⟨uwa, hmem, htg⟩ := decorateAchievers_tg_id 0 _ e (by
      simpa [getAchievementLeaderboard] using he)
    have hmem2 : uwa ∈ sortDesc (fun u : UserWithAchievements =>
        (u.achievement_score : ℚ))
        ((DailyProgressService.getLeaderboardData progressData users
          { period := "all", type := "overall", limit := limit * 2 }).map (fun user =>
            let achievements := calculateUserAchievements
              { total_points := user.total_points, total_pages := user.total_pages
              , total_distance := user.total_distance, days_count := user.days_count }
            { user := user, achievements := achievements
            , achievement_count := achievements.length
            , achievement_score := calculateAchievementScore achievements })) :=
      List.mem_of_mem_take hmem
    rw [sortDesc_mem] at hmem2
    obtain ⟨entry, hentry, huwa⟩ := List.mem_map.mp hmem2
    have huser : uwa.user = entry := by rw [← huwa]
    obtain ⟨u, hu, _, _, _, _, _, htg2⟩ :=
      DailyProgressService.addRankScore_fields _ _ 0 entry hentry
    refine List.mem_map.mpr ⟨u, hu, ?_⟩
    rw [htg, huser, htg2]

end LeaderboardController
